import Mathlib

/-!
Shallow embedding of the BxPress real-time service (`src/server.js`).

The server keeps three JavaScript `Map`s (lines 19-21):
  `userConnections : userId   → socketId`
  `userRoles       : userId   → role`
  `socketUsers     : socketId → userId`
plus socket.io room membership (role room, personal room, chat rooms).
A fourth map `activeCalls` is declared (line 24) but never read or written,
so it is omitted here.

JavaScript `Map`s are embedded as association lists with unique keys:
`mapSet` updates the entry in place or appends (like `Map.prototype.set`),
`mapDelete` removes the key's entry (like `Map.prototype.delete`), and
`lookupM` is `Map.prototype.get` returning `none` for `undefined`.
-/

/-- `Map.prototype.get`: first entry with the given key, if any. -/
def lookupM {α : Type} : List (String × α) → String → Option α
  | [], _ => none
  | (k, v) :: rest, q => if q = k then some v else lookupM rest q

/-- `Map.prototype.set`: update the existing entry in place, else append. -/
def mapSet {α : Type} : List (String × α) → String → α → List (String × α)
  | [], k, v => [(k, v)]
  | (k0, v0) :: rest, k, v =>
      if k0 = k then (k, v) :: rest else (k0, v0) :: mapSet rest k v

/-- `Map.prototype.delete`: remove the key's entry (keys are unique in any
map built through `mapSet`, so removing every occurrence is the same). -/
def mapDelete {α : Type} (m : List (String × α)) (k : String) : List (String × α) :=
  m.filter (fun p => p.1 ≠ k)

/-- `userConnections.delete(disconnectedUserId)` where the id may be
`undefined` (a `Map.get` miss): deleting `undefined` is a no-op. -/
def delOpt {α : Type} (m : List (String × α)) : Option String → List (String × α)
  | some k => mapDelete m k
  | none => m

-- ==================== SERVER STATE ====================

/-- The mutable state of the server: the three registry maps of
`server.js` lines 19-21 plus socket.io room membership (room name →
member socket ids), which the source manipulates through `socket.join`,
`socket.leave` and automatic removal on disconnect. -/
structure ServerState where
  userConnections : List (String × String)
  userRoles : List (String × String)
  socketUsers : List (String × String)
  rooms : List (String × List String)
deriving Repr, DecidableEq

def emptyState : ServerState := ⟨[], [], [], []⟩

/-- `socket.join(name)`: add the socket to the room's member set (idempotent). -/
def roomJoin (rooms : List (String × List String)) (name sid : String) :
    List (String × List String) :=
  match lookupM rooms name with
  | some ms => mapSet rooms name (if sid ∈ ms then ms else ms ++ [sid])
  | none => mapSet rooms name [sid]

/-- `socket.leave(name)`: remove the socket from the room's member set. -/
def roomLeave (rooms : List (String × List String)) (name sid : String) :
    List (String × List String) :=
  match lookupM rooms name with
  | some ms => mapSet rooms name (ms.filter (fun s => s ≠ sid))
  | none => rooms

/-- socket.io removes a disconnected socket from every room it is in. -/
def dropFromRooms (rooms : List (String × List String)) (sid : String) :
    List (String × List String) :=
  rooms.map (fun p => (p.1, p.2.filter (fun s => s ≠ sid)))

def roomMembers (st : ServerState) (name : String) : List String :=
  (lookupM st.rooms name).getD []

/-- Connection handler body, `server.js` lines 34-40: overwrite the three
registry maps, join the role room and the personal room. `uid` and `role`
are the handshake values after the defaulting of lines 29-30. -/
def connectStep (st : ServerState) (uid role sid : String) : ServerState :=
  ⟨mapSet st.userConnections uid sid,
   mapSet st.userRoles uid role,
   mapSet st.socketUsers sid uid,
   roomJoin (roomJoin st.rooms ("role-" ++ role) sid) ("user-" ++ uid) sid⟩

/-- Line 29: `socket.handshake.auth.userId || guest-<socket.id>` (the empty
string is falsy in JavaScript). -/
def handshakeUserId (auth : Option String) (sid : String) : String :=
  match auth with
  | some s => if s = "" then "guest-" ++ sid else s
  | none => "guest-" ++ sid

/-- Line 30: `socket.handshake.auth.role || "Guest"`. -/
def handshakeRole (auth : Option String) : String :=
  match auth with
  | some s => if s = "" then "Guest" else s
  | none => "Guest"

/-- Full connection registration including handshake defaulting. -/
def connectHandler (st : ServerState) (authUid authRole : Option String)
    (sid : String) : ServerState :=
  connectStep st (handshakeUserId authUid sid) (handshakeRole authRole) sid

/-- Disconnect handler, lines 187-198, plus socket.io's automatic removal of
the socket from all rooms. The `reason` argument is only logged by the
source, so the resulting state ignores it. -/
def disconnectStep (st : ServerState) (sid _reason : String) : ServerState :=
  let du := lookupM st.socketUsers sid
  ⟨delOpt st.userConnections du,
   delOpt st.userRoles du,
   mapDelete st.socketUsers sid,
   dropFromRooms st.rooms sid⟩

/-- `resolve(userId)`: the live socket currently registered for a user. -/
def resolve (st : ServerState) (uid : String) : Option String :=
  lookupM st.userConnections uid

-- ==================== EVENT EMISSION MODEL ====================

/-- A delivery target: `io.to(socketId)` / `socket.emit` reach one socket
(every socket.io socket is alone in the room named by its own id), while
`io.to(roomName)` reaches a named room and `io.emit` reaches everyone. -/
inductive Target where
  | socket (sid : String)
  | room (name : String)
  | all
deriving Repr, DecidableEq

/-- Payload shapes the source constructs. Opaque request data that the
server forwards untouched is carried as `data`. Timestamps
(`new Date().toISOString()`) are passed in as strings. -/
inductive Payload where
  | data (d : String)
  | callError (callId error : String)
  | callOffer (callId callerId offer ts : String)
  | callAnswer (callId answer ts : String)
  | callIce (callId candidate ts : String)
  | callIncoming (callId callerId callerName callerImage ts : String)
  | callNotice (callId ts : String)
  | readReceipt (chatRoomId messageId ts : String) (readBy : Option String)
deriving Repr, DecidableEq

/-- One `emit` performed by the server. -/
structure Emit where
  target : Target
  event : String
  payload : Payload
deriving Repr, DecidableEq

-- ==================== EVENT ROUTER ====================

/-- Delivery to one user (the core of `POST /notify/user`, lines 387-396,
and of every `userConnections.get` + `io.to(socketId).emit` pair): resolve
the user's socket; if present deliver and report `true`, else deliver
nothing and report `false`. -/
def sendToUser (st : ServerState) (uid ev : String) (pl : Payload) :
    Bool × List Emit :=
  match lookupM st.userConnections uid with
  | some sid => (true, [⟨Target.socket sid, ev, pl⟩])
  | none => (false, [])

/-- The `recipients.forEach` loop of `POST /notify/users` (lines 413-422)
and `POST /notify/chat/message` (lines 217-226): per-user resolution into a
JavaScript object `results` (`mapSet` is exactly object-property
assignment: overwrite or append), a `deliveredCount` incremented per
delivered occurrence, and the emitted events in order. -/
def sendToUsersStep (st : ServerState) (ev : String) (pl : Payload)
    (acc : List (String × Bool) × Nat × List Emit) (uid : String) :
    List (String × Bool) × Nat × List Emit :=
  match lookupM st.userConnections uid with
  | some sid => (mapSet acc.1 uid true, acc.2.1 + 1,
                 acc.2.2 ++ [⟨Target.socket sid, ev, pl⟩])
  | none => (mapSet acc.1 uid false, acc.2.1, acc.2.2)

def sendToUsers (st : ServerState) (ids : List String) (ev : String)
    (pl : Payload) : List (String × Bool) × Nat × List Emit :=
  ids.foldl (sendToUsersStep st ev pl) ([], 0, [])

/-- Number of `true` entries of a `results` object. -/
def countTrue (m : List (String × Bool)) : Nat :=
  (m.filter (fun p => p.2)).length

-- ==================== SIGNALING RELAY ====================

/-- `socket.on("call:offer")`, lines 97-127. `senderUid`/`senderSid` are
the closure `userId` and `socket.id` of the handling connection. -/
def relayOffer (st : ServerState) (senderUid senderSid callId receiverId offer ts : String) :
    List Emit :=
  if receiverId = senderUid then
    [⟨Target.socket senderSid, "call:error", Payload.callError callId "Cannot call yourself"⟩]
  else
    match lookupM st.userConnections receiverId with
    | some rsid => [⟨Target.socket rsid, "call:offer",
                     Payload.callOffer callId senderUid offer ts⟩]
    | none =>
        [⟨Target.socket senderSid, "call:error",
          Payload.callError callId "Receiver not connected"⟩]

/-- `socket.on("call:answer")`, lines 130-151: self-target and
absent-caller cases are silent (console log only, no emit). -/
def relayAnswer (st : ServerState) (senderUid senderSid callId callerId answer ts : String) :
    List Emit :=
  if callerId = senderUid then []
  else
    match lookupM st.userConnections callerId with
    | some csid => [⟨Target.socket csid, "call:answer",
                     Payload.callAnswer callId answer ts⟩]
    | none => []

/-- `socket.on("call:ice-candidate")`, lines 154-175: same silent shape as
`relayAnswer`. -/
def relayIceCandidate (st : ServerState) (senderUid senderSid callId targetUserId candidate ts : String) :
    List Emit :=
  if targetUserId = senderUid then []
  else
    match lookupM st.userConnections targetUserId with
    | some tsid => [⟨Target.socket tsid, "call:ice-candidate",
                     Payload.callIce callId candidate ts⟩]
    | none => []

-- ==================== REGISTRY QUERIES ====================

/-- ASCII lower-casing, the behaviour of `String.prototype.toLowerCase`
on the ASCII role strings this server compares. -/
def lowerChar (c : Char) : Char :=
  if 65 ≤ c.toNat ∧ c.toNat ≤ 90 then Char.ofNat (c.toNat + 32) else c

def lowerStr (s : String) : String := ⟨s.data.map lowerChar⟩

/-- Lines 444-446: count registry entries whose stored role matches the
query case-insensitively. -/
def countByRole (st : ServerState) (role : String) : Nat :=
  (st.userRoles.filter (fun p => lowerStr p.2 = lowerStr role)).length

-- ==================== REST LAYER ====================

/-- The JSON body a REST handler responds with, plus the emits it performs.
Optional fields cover the different response shapes (`delivered`,
`deliveredCount`/`totalUsers` — also used for `totalRecipients` —
`usersCount`, `results`). REST handlers never mutate the registry or the
rooms (they only read `userConnections`/`userRoles` and emit), which is
why they return no new state. -/
structure RestOut where
  status : Nat
  success : Bool
  error : Option String
  delivered : Option Bool
  deliveredCount : Option Nat
  totalUsers : Option Nat
  usersCount : Option Nat
  results : Option (List (String × Bool))
  emits : List Emit
deriving Repr, DecidableEq

/-- `res.status(400).json({success: false, error: msg})`. -/
def restErr (msg : String) : RestOut :=
  ⟨400, false, some msg, none, none, none, none, none, []⟩

def restDelivered (d : Bool) (es : List Emit) : RestOut :=
  ⟨200, true, none, some d, none, none, none, none, es⟩

def restFan (results : List (String × Bool)) (dc tot : Nat) (es : List Emit) : RestOut :=
  ⟨200, true, none, none, some dc, some tot, none, some results, es⟩

def restCount (dc : Nat) (es : List Emit) : RestOut :=
  ⟨200, true, none, none, some dc, none, none, none, es⟩

def restUsers (n : Nat) (es : List Emit) : RestOut :=
  ⟨200, true, none, none, none, none, some n, none, es⟩

def restPlain (es : List Emit) : RestOut :=
  ⟨200, true, none, none, none, none, none, none, es⟩

/-- The `callerData` object of `POST /notify/call/incoming`. -/
structure CallerData where
  callerId : String
  callerName : String
  callerImage : String
deriving Repr, DecidableEq

/-- `POST /notify/chat/message`, lines 204-239: validate, fan out to the
explicit recipients, then also emit to the chat room. A missing field is
`none`; a present-but-empty string is falsy in JavaScript and rejected
too. `messageData` is an opaque JSON object, falsy only when absent. -/
def notifyChatMessage (st : ServerState) (chatRoomId : Option String)
    (recipientIds : Option (List String)) (messageData : Option String) : RestOut :=
  match chatRoomId, recipientIds, messageData with
  | some crid, some rids, some md =>
      if crid = "" then
        restErr "chatRoomId, recipientIds, and messageData are required"
      else
        let r := sendToUsers st rids "chat:message" (Payload.data md)
        restFan r.1 r.2.1 rids.length
          (r.2.2 ++ [⟨Target.room ("chat-" ++ crid), "chat:message", Payload.data md⟩])
  | _, _, _ => restErr "chatRoomId, recipientIds, and messageData are required"

/-- `POST /notify/chat/read`, lines 242-263: `userId` is not required and
is forwarded as `readBy` even when absent. -/
def notifyChatRead (st : ServerState) (chatRoomId userId messageId : Option String)
    (ts : String) : RestOut :=
  match chatRoomId, messageId with
  | some crid, some mid =>
      if crid = "" ∨ mid = "" then restErr "chatRoomId and messageId are required"
      else
        restPlain [⟨Target.room ("chat-" ++ crid), "chat:message-read",
                    Payload.readReceipt crid mid ts userId⟩]
  | _, _ => restErr "chatRoomId and messageId are required"

/-- `POST /notify/call/incoming`, lines 266-293. -/
def notifyCallIncoming (st : ServerState) (callId receiverId : Option String)
    (callerData : Option CallerData) (ts : String) : RestOut :=
  match callId, receiverId, callerData with
  | some cid, some rid, some cd =>
      if cid = "" ∨ rid = "" then
        restErr "callId, receiverId, and callerData are required"
      else
        match lookupM st.userConnections rid with
        | some sid =>
            restDelivered true
              [⟨Target.socket sid, "call:incoming",
                Payload.callIncoming cid cd.callerId cd.callerName cd.callerImage ts⟩]
        | none => restDelivered false []
  | _, _, _ => restErr "callId, receiverId, and callerData are required"

/-- `POST /notify/call/answered`, lines 296-319. -/
def notifyCallAnswered (st : ServerState) (callId callerId : Option String)
    (ts : String) : RestOut :=
  match callId, callerId with
  | some cid, some clid =>
      if cid = "" ∨ clid = "" then restErr "callId and callerId are required"
      else
        match lookupM st.userConnections clid with
        | some sid =>
            restDelivered true [⟨Target.socket sid, "call:answered", Payload.callNotice cid ts⟩]
        | none => restDelivered false []
  | _, _ => restErr "callId and callerId are required"

/-- The `userIds.forEach` loop of `POST /notify/call/ended`, lines 333-342:
count and emit, with no per-user results object. -/
def callEndedLoop (st : ServerState) (ids : List String) (cid ts : String) :
    Nat × List Emit :=
  ids.foldl
    (fun acc uid =>
      match lookupM st.userConnections uid with
      | some sid => (acc.1 + 1, acc.2 ++ [⟨Target.socket sid, "call:ended",
                                           Payload.callNotice cid ts⟩])
      | none => acc)
    (0, [])

/-- `POST /notify/call/ended`, lines 322-346. -/
def notifyCallEnded (st : ServerState) (callId : Option String)
    (userIds : Option (List String)) (ts : String) : RestOut :=
  match callId, userIds with
  | some cid, some ids =>
      if cid = "" then restErr "callId and userIds are required"
      else
        let r := callEndedLoop st ids cid ts
        restCount r.1 r.2
  | _, _ => restErr "callId and userIds are required"

/-- `POST /notify/call/rejected`, lines 349-372. -/
def notifyCallRejected (st : ServerState) (callId callerId : Option String)
    (ts : String) : RestOut :=
  match callId, callerId with
  | some cid, some clid =>
      if cid = "" ∨ clid = "" then restErr "callId and callerId are required"
      else
        match lookupM st.userConnections clid with
        | some sid =>
            restDelivered true [⟨Target.socket sid, "call:rejected", Payload.callNotice cid ts⟩]
        | none => restDelivered false []
  | _, _ => restErr "callId and callerId are required"

/-- `POST /notify/user`, lines 377-397. -/
def notifyUser (st : ServerState) (userId event : Option String) (d : String) : RestOut :=
  match userId, event with
  | some u, some e =>
      if u = "" ∨ e = "" then restErr "userId and event are required"
      else
        let r := sendToUser st u e (Payload.data d)
        restDelivered r.1 r.2
  | _, _ => restErr "userId and event are required"

/-- `POST /notify/users`, lines 400-431. A missing or non-array `userIds`
is `none`; an empty array is truthy in JavaScript and accepted. -/
def notifyUsers (st : ServerState) (userIds : Option (List String))
    (event : Option String) (d : String) : RestOut :=
  match userIds, event with
  | some ids, some e =>
      if e = "" then restErr "userIds (array) and event are required"
      else
        let r := sendToUsers st ids e (Payload.data d)
        restFan r.1 r.2.1 ids.length r.2.2
  | _, _ => restErr "userIds (array) and event are required"

/-- `POST /notify/role`, lines 434-452: the reported `usersCount` is the
case-insensitive `countByRole`, while the emit targets the case-sensitive
room key `role-<role>`. -/
def notifyRole (st : ServerState) (role event : Option String) (d : String) : RestOut :=
  match role, event with
  | some r, some e =>
      if r = "" ∨ e = "" then restErr "role and event are required"
      else restUsers (countByRole st r) [⟨Target.room ("role-" ++ r), e, Payload.data d⟩]
  | _, _ => restErr "role and event are required"

/-- `POST /notify/all`, lines 455-469. -/
def notifyAll (st : ServerState) (event : Option String) (d : String) : RestOut :=
  match event with
  | some e =>
      if e = "" then restErr "event is required"
      else restUsers st.userConnections.length [⟨Target.all, e, Payload.data d⟩]
  | none => restErr "event is required"

-- ==================== REACHABLE STATES ====================

/-- The state-changing inputs the server reacts to. `connect` carries the
identity after handshake defaulting; `disconnect` carries the transport's
reason, which the handler ignores. -/
inductive NetEvent where
  | connect (uid role sid : String)
  | disconnect (sid reason : String)
  | chatJoin (sid chatRoomId : String)
  | chatLeave (sid chatRoomId : String)
deriving Repr, DecidableEq

def step (st : ServerState) : NetEvent → ServerState
  | NetEvent.connect u r sid => connectStep st u r sid
  | NetEvent.disconnect sid reason => disconnectStep st sid reason
  | NetEvent.chatJoin sid cr =>
      ⟨st.userConnections, st.userRoles, st.socketUsers,
       roomJoin st.rooms ("chat-" ++ cr) sid⟩
  | NetEvent.chatLeave sid cr =>
      ⟨st.userConnections, st.userRoles, st.socketUsers,
       roomLeave st.rooms ("chat-" ++ cr) sid⟩

/-- The socket ids handed out to connections in a trace. The transport
never reuses a socket id, so a well-formed trace lists distinct ones. -/
def connectIds : List NetEvent → List String
  | [] => []
  | NetEvent.connect _ _ sid :: rest => sid :: connectIds rest
  | _ :: rest => connectIds rest

def run (tr : List NetEvent) : ServerState := tr.foldl step emptyState

/-- Forward-to-reverse correspondence: every `userId → socketId` entry has
the matching `socketId → userId` entry. -/
def FwdRev (st : ServerState) : Prop :=
  ∀ u c, lookupM st.userConnections u = some c → lookupM st.socketUsers c = some u

/-- Every socket id with a reverse-index entry appears in `used`, the ids
handed out so far (used to express that a fresh socket id has no entry). -/
def RevBound (st : ServerState) (used : List String) : Prop :=
  ∀ c, (lookupM st.socketUsers c).isSome = true → c ∈ used

/-- State after `u1` registers twice, first on socket `sA`, then on `sB`. -/
def stDouble : ServerState :=
  run [NetEvent.connect "u1" "Guest" "sA", NetEvent.connect "u1" "Guest" "sB"]

-- ==================== MAP LEMMAS ====================

theorem lookupM_set_self {α : Type} (m : List (String × α)) (k : String) (v : α) :
    lookupM (mapSet m k v) k = some v := by
  induction m with
  | nil => simp [mapSet, lookupM]
  | cons p rest ih =>
      obtain ⟨k0, v0⟩ := p
      by_cases h : k0 = k
      · simp [mapSet, h, lookupM]
      · have hk : k ≠ k0 := fun h2 => h h2.symm
        simp [mapSet, h, lookupM, hk, ih]

theorem lookupM_set_other {α : Type} (m : List (String × α)) (k q : String) (v : α)
    (h : q ≠ k) : lookupM (mapSet m k v) q = lookupM m q := by
  induction m with
  | nil => simp [mapSet, lookupM, h]
  | cons p rest ih =>
      obtain ⟨k0, v0⟩ := p
      by_cases hp : k0 = k
      · subst hp
        simp [mapSet, lookupM, h]
      · by_cases hq : q = k0
        · simp [mapSet, hp, lookupM, hq]
        · simp [mapSet, hp, lookupM, hq, ih]

theorem lookupM_delete_self {α : Type} (m : List (String × α)) (k : String) :
    lookupM (mapDelete m k) k = none := by
  induction m with
  | nil => simp [mapDelete, lookupM]
  | cons p rest ih =>
      obtain ⟨k0, v0⟩ := p
      by_cases h : k0 = k
      · simpa [mapDelete, h] using ih
      · have hk : k ≠ k0 := fun h2 => h h2.symm
        simpa [mapDelete, h, lookupM, hk] using ih

theorem lookupM_delete_other {α : Type} (m : List (String × α)) (k q : String)
    (h : q ≠ k) : lookupM (mapDelete m k) q = lookupM m q := by
  induction m with
  | nil => simp [mapDelete, lookupM]
  | cons p rest ih =>
      obtain ⟨k0, v0⟩ := p
      by_cases hp : k0 = k
      · have hq : q ≠ k0 := fun h2 => h (h2.trans hp)
        simpa [mapDelete, hp, lookupM, hq, h] using ih
      · by_cases hq : q = k0
        · simp [mapDelete, hp, lookupM, hq]
        · simpa [mapDelete, hp, lookupM, hq] using ih

theorem lookupM_append_none {α : Type} (a b : List (String × α)) (k : String)
    (h : lookupM a k = none) : lookupM (a ++ b) k = lookupM b k := by
  induction a with
  | nil => rfl
  | cons p rest ih =>
      obtain ⟨k0, v0⟩ := p
      by_cases hk : k = k0
      · simp [lookupM, hk] at h
      · simp only [lookupM, hk, if_false] at h
        simpa [List.cons_append, lookupM, hk] using ih h

/-- `mapSet` on a key absent from the map is an append. -/
theorem mapSet_absent {α : Type} (m : List (String × α)) (k : String) (v : α)
    (h : lookupM m k = none) : mapSet m k v = m ++ [(k, v)] := by
  induction m with
  | nil => rfl
  | cons p rest ih =>
      obtain ⟨k0, v0⟩ := p
      by_cases hk : k = k0
      · simp [lookupM, hk] at h
      · simp only [lookupM, hk, if_false] at h
        have h0 : ¬ k0 = k := fun h2 => hk h2.symm
        simp only [mapSet, h0, if_false, List.cons_append]
        rw [ih h]

-- ==================== CLAIM THEOREMS ====================

/-- C1 counterexample: after `u1` registers on `sA` and again on `sB`,
`resolve(u1)` is `sB` as claimed, but the reverse-index entry of the
previous connection is NOT discarded: `sA` still maps back to `u1` —
lines 34-35 only overwrite `userConnections` and add a new `socketUsers`
entry, they never delete the old one. -/
theorem reregister_discards_reverse_cex :
    resolve stDouble "u1" = some "sB" ∧
    lookupM stDouble.socketUsers "sA" = some "u1" := by decide

/-- C1 amended: registering `u` again on a new socket `sB` updates
`resolve(u)` to `sB`, and the previous socket `sA` keeps its reverse-index
entry mapping back to `u` (it is removed only when `sA` disconnects). -/
theorem reregister_updates_forward_keeps_reverse (st : ServerState)
    (u rA rB sA sB : String) (h : sA ≠ sB) :
    resolve (connectStep (connectStep st u rA sA) u rB sB) u = some sB ∧
    lookupM (connectStep (connectStep st u rA sA) u rB sB).socketUsers sA = some u := by
  constructor
  · exact lookupM_set_self _ _ _
  · show lookupM (mapSet (mapSet st.socketUsers sA u) sB u) sA = some u
    rw [lookupM_set_other _ _ _ _ h]
    exact lookupM_set_self _ _ _

theorem reregister_updates_forward_keeps_reverse_wit :
    resolve (connectStep (connectStep emptyState "u1" "G" "sA") "u1" "G" "sB") "u1" = some "sB" ∧
    lookupM (connectStep (connectStep emptyState "u1" "G" "sA") "u1" "G" "sB").socketUsers "sA" = some "u1" :=
  reregister_updates_forward_keeps_reverse emptyState "u1" "G" "G" "sA" "sB" (by decide)

/-- C2: if `u` connects on `sA`, connects again on `sB`, and then `sA`
disconnects, the disconnect handler (lines 187-198) looks up `u` through
`sA`'s surviving reverse entry and deletes `userConnections[u]` — which
points at `sB` — so `resolve(u)` is absent and `sendToUser(u, ...)`
reports no delivery, even though `sB` is still a live connection (its
reverse entry survives). -/
theorem orphan_disconnect_clears_user (st : ServerState)
    (u rA rB sA sB reason ev : String) (pl : Payload) (h : sA ≠ sB) :
    resolve (disconnectStep (connectStep (connectStep st u rA sA) u rB sB) sA reason) u = none ∧
    sendToUser (disconnectStep (connectStep (connectStep st u rA sA) u rB sB) sA reason) u ev pl
      = (false, []) ∧
    lookupM (disconnectStep (connectStep (connectStep st u rA sA) u rB sB) sA reason).socketUsers sB
      = some u := by
  have hdu : lookupM (connectStep (connectStep st u rA sA) u rB sB).socketUsers sA = some u := by
    show lookupM (mapSet (mapSet st.socketUsers sA u) sB u) sA = some u
    rw [lookupM_set_other _ _ _ _ h]
    exact lookupM_set_self _ _ _
  have hfwd : resolve (disconnectStep (connectStep (connectStep st u rA sA) u rB sB) sA reason) u
      = none := by
    show lookupM (delOpt _ (lookupM (connectStep (connectStep st u rA sA) u rB sB).socketUsers sA)) u
      = none
    rw [hdu]
    exact lookupM_delete_self _ _
  have hfwd2 : lookupM (disconnectStep (connectStep (connectStep st u rA sA) u rB sB) sA
      reason).userConnections u = none := hfwd
  refine ⟨hfwd, ?_, ?_⟩
  · unfold sendToUser
    rw [hfwd2]
  · show lookupM (mapDelete (connectStep (connectStep st u rA sA) u rB sB).socketUsers sA) sB
      = some u
    rw [lookupM_delete_other _ _ _ (fun h2 => h h2.symm)]
    show lookupM (mapSet (mapSet st.socketUsers sA u) sB u) sB = some u
    exact lookupM_set_self _ _ _

theorem orphan_disconnect_clears_user_wit :
    resolve (disconnectStep (connectStep (connectStep emptyState "u1" "G" "sA") "u1" "G" "sB") "sA" "transport close") "u1" = none ∧
    sendToUser (disconnectStep (connectStep (connectStep emptyState "u1" "G" "sA") "u1" "G" "sB") "sA" "transport close") "u1" "X" (Payload.data "d")
      = (false, []) ∧
    lookupM (disconnectStep (connectStep (connectStep emptyState "u1" "G" "sA") "u1" "G" "sB") "sA" "transport close").socketUsers "sB"
      = some "u1" :=
  orphan_disconnect_clears_user emptyState "u1" "G" "G" "sA" "sB" "transport close" "X"
    (Payload.data "d") (by decide)

/-- Registration (lines 34-36) preserves the forward-to-reverse
correspondence when the socket id is fresh, and records the new id. -/
theorem fwdRev_connect (st : ServerState) (used : List String) (u0 r0 c0 : String)
    (h1 : FwdRev st) (h2 : RevBound st used) (hf : c0 ∉ used) :
    FwdRev (connectStep st u0 r0 c0) ∧ RevBound (connectStep st u0 r0 c0) (c0 :: used) := by
  have hrev0 : lookupM st.socketUsers c0 = none := by
    cases hc : lookupM st.socketUsers c0 with
    | none => rfl
    | some u => exact absurd (h2 c0 (by simp [hc])) hf
  constructor
  · intro u c hu
    show lookupM (mapSet st.socketUsers c0 u0) c = some u
    have hu2 : lookupM (mapSet st.userConnections u0 c0) u = some c := hu
    by_cases h : u = u0
    · subst h
      rw [lookupM_set_self] at hu2
      obtain rfl : c0 = c := Option.some.inj hu2
      exact lookupM_set_self _ _ _
    · rw [lookupM_set_other _ _ _ _ h] at hu2
      have hr := h1 u c hu2
      by_cases hc0 : c = c0
      · subst hc0
        rw [hrev0] at hr
        exact absurd hr (by simp)
      · rw [lookupM_set_other _ _ _ _ hc0]
        exact hr
  · intro c hc
    have hc2 : (lookupM (mapSet st.socketUsers c0 u0) c).isSome = true := hc
    by_cases h : c = c0
    · exact h ▸ List.mem_cons_self _ _
    · rw [lookupM_set_other _ _ _ _ h] at hc2
      exact List.mem_cons_of_mem _ (h2 c hc2)

/-- Deregistration (lines 188-192) preserves the forward-to-reverse
correspondence, whatever socket disconnects. -/
theorem fwdRev_disconnect (st : ServerState) (used : List String) (d reason : String)
    (h1 : FwdRev st) (h2 : RevBound st used) :
    FwdRev (disconnectStep st d reason) ∧ RevBound (disconnectStep st d reason) used := by
  constructor
  · intro u c hu
    show lookupM (mapDelete st.socketUsers d) c = some u
    have hu2 : lookupM (delOpt st.userConnections (lookupM st.socketUsers d)) u = some c := hu
    cases hd : lookupM st.socketUsers d with
    | none =>
        rw [hd] at hu2
        simp only [delOpt] at hu2
        have hr := h1 u c hu2
        by_cases hcd : c = d
        · subst hcd
          rw [hd] at hr
          exact absurd hr (by simp)
        · rw [lookupM_delete_other _ _ _ hcd]
          exact hr
    | some u0 =>
        rw [hd] at hu2
        simp only [delOpt] at hu2
        by_cases huu : u = u0
        · subst huu
          rw [lookupM_delete_self] at hu2
          exact absurd hu2 (by simp)
        · rw [lookupM_delete_other _ _ _ huu] at hu2
          have hr := h1 u c hu2
          by_cases hcd : c = d
          · subst hcd
            rw [hd] at hr
            obtain rfl : u0 = u := Option.some.inj hr
            exact absurd rfl (fun h => huu h.symm)
          · rw [lookupM_delete_other _ _ _ hcd]
            exact hr
  · intro c hc
    have hc2 : (lookupM (mapDelete st.socketUsers d) c).isSome = true := hc
    by_cases h : c = d
    · subst h
      rw [lookupM_delete_self] at hc2
      exact absurd hc2 (by simp)
    · rw [lookupM_delete_other _ _ _ h] at hc2
      exact h2 c hc2

/-- Running any remaining trace whose fresh connect ids avoid `used`
preserves the forward-to-reverse correspondence. -/
theorem run_fwdRev_aux (tr : List NetEvent) : ∀ (st : ServerState) (used : List String),
    FwdRev st → RevBound st used → (∀ c, c ∈ connectIds tr → c ∉ used) →
    (connectIds tr).Nodup → FwdRev (tr.foldl step st) := by
  induction tr with
  | nil => intro st used h1 _ _ _; exact h1
  | cons e rest ih =>
      intro st used h1 h2 hdisj hnd
      cases e with
      | connect u0 r0 c0 =>
          have hids : connectIds (NetEvent.connect u0 r0 c0 :: rest) = c0 :: connectIds rest := rfl
          rw [hids] at hdisj hnd
          have hf : c0 ∉ used := hdisj c0 (List.mem_cons_self _ _)
          obtain ⟨g1, g2⟩ := fwdRev_connect st used u0 r0 c0 h1 h2 hf
          refine ih (connectStep st u0 r0 c0) (c0 :: used) g1 g2 ?_ (List.Nodup.of_cons hnd)
          intro c hc hmem
          rcases List.mem_cons.mp hmem with h | h
          · subst h
            exact (List.nodup_cons.mp hnd).1 hc
          · exact hdisj c (List.mem_cons_of_mem _ hc) h
      | disconnect d r =>
          obtain ⟨g1, g2⟩ := fwdRev_disconnect st used d r h1 h2
          exact ih (disconnectStep st d r) used g1 g2 hdisj hnd
      | chatJoin sid cr => exact ih _ used h1 h2 hdisj hnd
      | chatLeave sid cr => exact ih _ used h1 h2 hdisj hnd

/-- C3 counterexample: `stDouble` is reachable (two connects with distinct
socket ids, no handler mid-run), yet the indices do not correspond
exactly: the reverse index maps `sA` to `u1` while the forward index maps
`u1` to `sB`, not `sA`. -/
theorem registry_correspondence_cex :
    lookupM stDouble.socketUsers "sA" = some "u1" ∧
    lookupM stDouble.userConnections "u1" ≠ some "sA" := by decide

/-- C3 amended: in every state reachable by a trace of connects (with
fresh, never-reused socket ids), disconnects and chat room joins/leaves,
the correspondence holds in one direction only — every forward entry
`u → c` has the matching reverse entry `c → u`. The converse direction is
false (`registry_correspondence_cex`): re-registration leaves an orphaned
reverse entry with no forward counterpart. -/
theorem registry_forward_implies_reverse (tr : List NetEvent)
    (hnd : (connectIds tr).Nodup) (u c : String)
    (h : lookupM (run tr).userConnections u = some c) :
    lookupM (run tr).socketUsers c = some u := by
  refine run_fwdRev_aux tr emptyState [] ?_ ?_ ?_ hnd u c h
  · intro u0 c0 h0
    simp [emptyState, lookupM] at h0
  · intro c0 h0
    simp [emptyState, lookupM] at h0
  · intro c0 _ h0
    exact List.not_mem_nil c0 h0

theorem registry_forward_implies_reverse_wit :
    lookupM (run [NetEvent.connect "u1" "G" "s1"]).socketUsers "s1" = some "u1" :=
  registry_forward_implies_reverse [NetEvent.connect "u1" "G" "s1"] (by decide)
    "u1" "s1" (by decide)

/-- C4: `relayOffer` (lines 97-127) does exactly one of three things — a
self-target yields exactly one `call:error{callId, "Cannot call yourself"}`
to the sender's own socket and nothing else; a resolvable receiver yields
exactly one `call:offer{callId, callerId, offer, timestamp}` to the
receiver's socket only (the sender's socket gets nothing); an unresolvable
receiver yields exactly one `call:error{callId, "Receiver not connected"}`
to the sender. Each case is stated as an equality of the full emission
list, so "exactly one" and "nothing else" are literal. -/
theorem relayOffer_cases (st : ServerState) (u s cid rid off ts : String) :
    (rid = u → relayOffer st u s cid rid off ts
        = [⟨Target.socket s, "call:error", Payload.callError cid "Cannot call yourself"⟩]) ∧
    (rid ≠ u → ∀ rsid, lookupM st.userConnections rid = some rsid →
        relayOffer st u s cid rid off ts
        = [⟨Target.socket rsid, "call:offer", Payload.callOffer cid u off ts⟩]) ∧
    (rid ≠ u → lookupM st.userConnections rid = none →
        relayOffer st u s cid rid off ts
        = [⟨Target.socket s, "call:error", Payload.callError cid "Receiver not connected"⟩]) := by
  refine ⟨?_, ?_, ?_⟩
  · intro h
    simp [relayOffer, h]
  · intro h rsid hr
    simp [relayOffer, h, hr]
  · intro h hr
    simp [relayOffer, h, hr]

theorem relayOffer_cases_wit :
    relayOffer (connectStep emptyState "u2" "G" "s2") "u1" "s1" "c1" "u1" "o" "t"
      = [⟨Target.socket "s1", "call:error", Payload.callError "c1" "Cannot call yourself"⟩] ∧
    relayOffer (connectStep emptyState "u2" "G" "s2") "u1" "s1" "c1" "u2" "o" "t"
      = [⟨Target.socket "s2", "call:offer", Payload.callOffer "c1" "u1" "o" "t"⟩] ∧
    relayOffer (connectStep emptyState "u2" "G" "s2") "u1" "s1" "c1" "u3" "o" "t"
      = [⟨Target.socket "s1", "call:error", Payload.callError "c1" "Receiver not connected"⟩] :=
  ⟨(relayOffer_cases (connectStep emptyState "u2" "G" "s2") "u1" "s1" "c1" "u1" "o" "t").1 rfl,
   (relayOffer_cases (connectStep emptyState "u2" "G" "s2") "u1" "s1" "c1" "u2" "o" "t").2.1
     (by decide) "s2" (by decide),
   (relayOffer_cases (connectStep emptyState "u2" "G" "s2") "u1" "s1" "c1" "u3" "o" "t").2.2
     (by decide) (by decide)⟩

/-- C6: `relayAnswer` (lines 130-151) and `relayIceCandidate` (lines
154-175) emit nothing at all — no delivery and no error event — when the
target equals the sender, and likewise when the non-self target has no
live connection (silent failure, asymmetric with `relayOffer`). -/
theorem relay_silent_cases (st : ServerState) (u s cid target ans cand ts : String) :
    (target = u → relayAnswer st u s cid target ans ts = []) ∧
    (target = u → relayIceCandidate st u s cid target cand ts = []) ∧
    (target ≠ u → lookupM st.userConnections target = none →
        relayAnswer st u s cid target ans ts = [] ∧
        relayIceCandidate st u s cid target cand ts = []) := by
  refine ⟨?_, ?_, ?_⟩
  · intro h
    simp [relayAnswer, h]
  · intro h
    simp [relayIceCandidate, h]
  · intro h hr
    exact ⟨by simp [relayAnswer, h, hr], by simp [relayIceCandidate, h, hr]⟩

theorem relay_silent_cases_wit :
    relayAnswer emptyState "u1" "s1" "c1" "u1" "a" "t" = [] ∧
    relayIceCandidate emptyState "u1" "s1" "c1" "u1" "i" "t" = [] ∧
    (relayAnswer emptyState "u1" "s1" "c1" "u2" "a" "t" = [] ∧
     relayIceCandidate emptyState "u1" "s1" "c1" "u2" "i" "t" = []) :=
  ⟨(relay_silent_cases emptyState "u1" "s1" "c1" "u1" "a" "i" "t").1 rfl,
   (relay_silent_cases emptyState "u1" "s1" "c1" "u1" "a" "i" "t").2.1 rfl,
   (relay_silent_cases emptyState "u1" "s1" "c1" "u2" "a" "i" "t").2.2 (by decide) rfl⟩

/-- C5: `POST /notify/role` (lines 434-452) reports `usersCount` from the
case-insensitive role count over the registry while the delivery targets
the case-sensitive room key `role-<role>`; the two are computed from
different structures and can diverge. Concretely, with one user whose
stored role is `"Driver"`, `countByRole("driver")` is 1, yet the room
`role-driver` the broadcast would target is empty (the user is in
`role-Driver`). -/
theorem sendToRole_count_vs_group (st : ServerState) (r e d : String)
    (hr : r ≠ "") (he : e ≠ "") :
    notifyRole st (some r) (some e) d
      = restUsers (countByRole st r) [⟨Target.room ("role-" ++ r), e, Payload.data d⟩] ∧
    countByRole (connectStep emptyState "u1" "Driver" "s1") "driver" = 1 ∧
    roomMembers (connectStep emptyState "u1" "Driver" "s1") "role-driver" = [] ∧
    roomMembers (connectStep emptyState "u1" "Driver" "s1") "role-Driver" = ["s1"] := by
  refine ⟨?_, by decide, by decide, by decide⟩
  simp [notifyRole, hr, he]

theorem sendToRole_count_vs_group_wit :
    notifyRole emptyState (some "driver") (some "X") "d"
      = restUsers (countByRole emptyState "driver")
          [⟨Target.room ("role-" ++ "driver"), "X", Payload.data "d"⟩] ∧
    countByRole (connectStep emptyState "u1" "Driver" "s1") "driver" = 1 ∧
    roomMembers (connectStep emptyState "u1" "Driver" "s1") "role-driver" = [] ∧
    roomMembers (connectStep emptyState "u1" "Driver" "s1") "role-Driver" = ["s1"] :=
  sendToRole_count_vs_group emptyState "driver" "X" "d" (by decide) (by decide)

/-- C10: for a user id with no current connection (never registered, or
unregistered since), `sendToUser` performs no emit and reports
`delivered = false`; the REST wrapper `POST /notify/user` wraps this in a
`success: true` body. Both are total functions — absence is a normal
outcome, not a raised error. -/
theorem sendToUser_absent_false (st : ServerState) (u ev : String) (pl : Payload)
    (d : String) (h : lookupM st.userConnections u = none)
    (hu : u ≠ "") (he : ev ≠ "") :
    sendToUser st u ev pl = (false, []) ∧
    notifyUser st (some u) (some ev) d = restDelivered false [] := by
  constructor
  · simp [sendToUser, h]
  · simp [notifyUser, hu, he, sendToUser, h]

theorem sendToUser_absent_false_wit :
    sendToUser emptyState "u2" "X" (Payload.data "p") = (false, []) ∧
    notifyUser emptyState (some "u2") (some "X") "p" = restDelivered false [] :=
  sendToUser_absent_false emptyState "u2" "X" (Payload.data "p") "p" (by decide)
    (by decide) (by decide)

/-- Looking up a key after mapping a function over every value. -/
theorem lookupM_map_snd {α β : Type} (m : List (String × α)) (f : α → β) (k : String) :
    lookupM (m.map (fun p => (p.1, f p.2))) k = (lookupM m k).map f := by
  induction m with
  | nil => rfl
  | cons p rest ih =>
      obtain ⟨k0, v0⟩ := p
      by_cases h : k = k0 <;> simp [lookupM, h, ih]

/-- C8: whatever the disconnect reason, running the disconnect handler for
a socket that is registered to user `u` removes the forward, role and
reverse registry entries, removes the socket from every room, and makes a
subsequent `sendToUser(u, ...)` report `delivered = false` with no emit.
The handler is a total function of the state — it cannot fail. -/
theorem disconnect_cleanup (st : ServerState) (sid reason u ev : String) (pl : Payload)
    (h : lookupM st.socketUsers sid = some u) :
    lookupM (disconnectStep st sid reason).userConnections u = none ∧
    lookupM (disconnectStep st sid reason).userRoles u = none ∧
    lookupM (disconnectStep st sid reason).socketUsers sid = none ∧
    (∀ room, sid ∉ roomMembers (disconnectStep st sid reason) room) ∧
    sendToUser (disconnectStep st sid reason) u ev pl = (false, []) := by
  have h1 : (disconnectStep st sid reason).userConnections = mapDelete st.userConnections u := by
    simp [disconnectStep, h, delOpt]
  have h2 : (disconnectStep st sid reason).userRoles = mapDelete st.userRoles u := by
    simp [disconnectStep, h, delOpt]
  have h3 : (disconnectStep st sid reason).socketUsers = mapDelete st.socketUsers sid := rfl
  have hfwd : lookupM (disconnectStep st sid reason).userConnections u = none := by
    rw [h1]
    exact lookupM_delete_self _ _
  refine ⟨hfwd, ?_, ?_, ?_, ?_⟩
  · rw [h2]
    exact lookupM_delete_self _ _
  · rw [h3]
    exact lookupM_delete_self _ _
  · intro room
    show sid ∉ (lookupM (dropFromRooms st.rooms sid) room).getD []
    unfold dropFromRooms
    rw [lookupM_map_snd]
    cases hm : lookupM st.rooms room with
    | none => simp
    | some ms => simp [List.mem_filter]
  · unfold sendToUser
    rw [hfwd]

theorem disconnect_cleanup_wit :
    lookupM (disconnectStep (connectStep emptyState "u1" "Guest" "s1") "s1" "transport error").userConnections "u1" = none ∧
    lookupM (disconnectStep (connectStep emptyState "u1" "Guest" "s1") "s1" "transport error").userRoles "u1" = none ∧
    lookupM (disconnectStep (connectStep emptyState "u1" "Guest" "s1") "s1" "transport error").socketUsers "s1" = none ∧
    "s1" ∉ roomMembers (disconnectStep (connectStep emptyState "u1" "Guest" "s1") "s1" "transport error") "user-u1" ∧
    sendToUser (disconnectStep (connectStep emptyState "u1" "Guest" "s1") "s1" "transport error") "u1" "X" (Payload.data "d") = (false, []) :=
  ⟨(disconnect_cleanup (connectStep emptyState "u1" "Guest" "s1") "s1" "transport error" "u1" "X" (Payload.data "d") (by decide)).1,
   (disconnect_cleanup (connectStep emptyState "u1" "Guest" "s1") "s1" "transport error" "u1" "X" (Payload.data "d") (by decide)).2.1,
   (disconnect_cleanup (connectStep emptyState "u1" "Guest" "s1") "s1" "transport error" "u1" "X" (Payload.data "d") (by decide)).2.2.1,
   (disconnect_cleanup (connectStep emptyState "u1" "Guest" "s1") "s1" "transport error" "u1" "X" (Payload.data "d") (by decide)).2.2.2.1 "user-u1",
   (disconnect_cleanup (connectStep emptyState "u1" "Guest" "s1") "s1" "transport error" "u1" "X" (Payload.data "d") (by decide)).2.2.2.2⟩

/-- C9: on every REST endpoint, a request missing a required field is
answered with the structured 400 failure body (`restErr`) and produces no
emit whatsoever; the handlers receive the state read-only and return no
modified state, so registry and rooms are untouched. The validation runs
before any registry lookup, matching lines 207-212, 245-250, 269-274,
299-304, 325-330, 352-357, 380-385, 403-408, 437-442 and 458-463. -/
theorem rest_validation_rejects (st : ServerState) :
    (∀ a ids md, a = none ∨ ids = none ∨ md = none →
        notifyChatMessage st a ids md
          = restErr "chatRoomId, recipientIds, and messageData are required") ∧
    (∀ a uid mid ts, a = none ∨ mid = none →
        notifyChatRead st a uid mid ts = restErr "chatRoomId and messageId are required") ∧
    (∀ cid rid cd ts, cid = none ∨ rid = none ∨ cd = none →
        notifyCallIncoming st cid rid cd ts
          = restErr "callId, receiverId, and callerData are required") ∧
    (∀ cid clid ts, cid = none ∨ clid = none →
        notifyCallAnswered st cid clid ts = restErr "callId and callerId are required") ∧
    (∀ cid ids ts, cid = none ∨ ids = none →
        notifyCallEnded st cid ids ts = restErr "callId and userIds are required") ∧
    (∀ cid clid ts, cid = none ∨ clid = none →
        notifyCallRejected st cid clid ts = restErr "callId and callerId are required") ∧
    (∀ u e d, u = none ∨ e = none →
        notifyUser st u e d = restErr "userId and event are required") ∧
    (∀ ids e d, ids = none ∨ e = none →
        notifyUsers st ids e d = restErr "userIds (array) and event are required") ∧
    (∀ r e d, r = none ∨ e = none →
        notifyRole st r e d = restErr "role and event are required") ∧
    (∀ d, notifyAll st none d = restErr "event is required") := by
  refine ⟨?_, ?_, ?_, ?_, ?_, ?_, ?_, ?_, ?_, ?_⟩
  · intro a b c h
    rcases h with rfl | rfl | rfl
    · cases b <;> cases c <;> rfl
    · cases a <;> cases c <;> rfl
    · cases a <;> cases b <;> rfl
  · intro a uid mid ts h
    rcases h with rfl | rfl
    · cases mid <;> rfl
    · cases a <;> rfl
  · intro a b c ts h
    rcases h with rfl | rfl | rfl
    · cases b <;> cases c <;> rfl
    · cases a <;> cases c <;> rfl
    · cases a <;> cases b <;> rfl
  · intro a b ts h
    rcases h with rfl | rfl
    · cases b <;> rfl
    · cases a <;> rfl
  · intro a b ts h
    rcases h with rfl | rfl
    · cases b <;> rfl
    · cases a <;> rfl
  · intro a b ts h
    rcases h with rfl | rfl
    · cases b <;> rfl
    · cases a <;> rfl
  · intro a b d h
    rcases h with rfl | rfl
    · cases b <;> rfl
    · cases a <;> rfl
  · intro a b d h
    rcases h with rfl | rfl
    · cases b <;> rfl
    · cases a <;> rfl
  · intro a b d h
    rcases h with rfl | rfl
    · cases b <;> rfl
    · cases a <;> rfl
  · intro d
    rfl

theorem rest_validation_rejects_wit :
    notifyChatMessage emptyState none (some ["a"]) (some "m")
      = restErr "chatRoomId, recipientIds, and messageData are required" ∧
    notifyChatRead emptyState (some "r") (some "u") none "t"
      = restErr "chatRoomId and messageId are required" ∧
    notifyCallIncoming emptyState none (some "u2") (some ⟨"u1", "n", "img"⟩) "t"
      = restErr "callId, receiverId, and callerData are required" ∧
    notifyCallAnswered emptyState (some "c1") none "t"
      = restErr "callId and callerId are required" ∧
    notifyCallEnded emptyState (some "c1") none "t"
      = restErr "callId and userIds are required" ∧
    notifyCallRejected emptyState none (some "u1") "t"
      = restErr "callId and callerId are required" ∧
    notifyUser emptyState (some "u1") none "d"
      = restErr "userId and event are required" ∧
    notifyUsers emptyState none (some "X") "d"
      = restErr "userIds (array) and event are required" ∧
    notifyRole emptyState (some "Driver") none "d"
      = restErr "role and event are required" ∧
    notifyAll emptyState none "d" = restErr "event is required" :=
  ⟨(rest_validation_rejects emptyState).1 none (some ["a"]) (some "m") (Or.inl rfl),
   (rest_validation_rejects emptyState).2.1 (some "r") (some "u") none "t" (Or.inr rfl),
   (rest_validation_rejects emptyState).2.2.1 none (some "u2") (some ⟨"u1", "n", "img"⟩) "t"
     (Or.inl rfl),
   (rest_validation_rejects emptyState).2.2.2.1 (some "c1") none "t" (Or.inr rfl),
   (rest_validation_rejects emptyState).2.2.2.2.1 (some "c1") none "t" (Or.inr rfl),
   (rest_validation_rejects emptyState).2.2.2.2.2.1 none (some "u1") "t" (Or.inl rfl),
   (rest_validation_rejects emptyState).2.2.2.2.2.2.1 (some "u1") none "d" (Or.inr rfl),
   (rest_validation_rejects emptyState).2.2.2.2.2.2.2.1 none (some "X") "d" (Or.inl rfl),
   (rest_validation_rejects emptyState).2.2.2.2.2.2.2.2.1 (some "Driver") none "d" (Or.inr rfl),
   (rest_validation_rejects emptyState).2.2.2.2.2.2.2.2.2 "d"⟩

/-- Unrolling the `forEach` loop of `sendToUsers` from a general
accumulator: when the ids are distinct and none is already a key of the
accumulated results object, the results are the per-id resolution outcomes
in order and the delivered count adds the number of resolvable ids. -/
theorem sendToUsers_foldl (st : ServerState) (ev : String) (pl : Payload) :
    ∀ (ids : List String) (m0 : List (String × Bool)) (n0 : Nat) (es0 : List Emit),
    (∀ u, u ∈ ids → lookupM m0 u = none) → ids.Nodup →
    (ids.foldl (sendToUsersStep st ev pl) (m0, n0, es0)).1
      = m0 ++ ids.map (fun u => (u, (lookupM st.userConnections u).isSome)) ∧
    (ids.foldl (sendToUsersStep st ev pl) (m0, n0, es0)).2.1
      = n0 + ids.countP (fun u => (lookupM st.userConnections u).isSome) := by
  intro ids
  induction ids with
  | nil =>
      intro m0 n0 es0 _ _
      simp
  | cons u rest ih =>
      intro m0 n0 es0 habs hnd
      have hu : lookupM m0 u = none := habs u (List.mem_cons_self _ _)
      have hrest : ∀ b, ∀ w, w ∈ rest → lookupM (m0 ++ [(u, b)]) w = none := by
        intro b w hw
        have hwu : ¬ w = u := fun h => (List.nodup_cons.mp hnd).1 (h ▸ hw)
        rw [lookupM_append_none _ _ _ (habs w (List.mem_cons_of_mem _ hw))]
        simp [lookupM, hwu]
      cases hr : lookupM st.userConnections u with
      | some sid =>
          have hstep : sendToUsersStep st ev pl (m0, n0, es0) u
              = (m0 ++ [(u, true)], n0 + 1, es0 ++ [⟨Target.socket sid, ev, pl⟩]) := by
            simp [sendToUsersStep, hr, mapSet_absent m0 u true hu]
          rw [List.foldl_cons, hstep]
          obtain ⟨g1, g2⟩ := ih (m0 ++ [(u, true)]) (n0 + 1) _ (hrest true)
            (List.Nodup.of_cons hnd)
          constructor
          · rw [g1]
            simp [hr]
          · rw [g2]
            simp [hr, List.countP_cons]
            omega
      | none =>
          have hstep : sendToUsersStep st ev pl (m0, n0, es0) u
              = (m0 ++ [(u, false)], n0, es0) := by
            simp [sendToUsersStep, hr, mapSet_absent m0 u false hu]
          rw [List.foldl_cons, hstep]
          obtain ⟨g1, g2⟩ := ih (m0 ++ [(u, false)]) n0 _ (hrest false)
            (List.Nodup.of_cons hnd)
          constructor
          · rw [g1]
            simp [hr]
          · rw [g2]
            simp [hr, List.countP_cons]

/-- The `true`-entry count of a per-id outcome object. -/
theorem countTrue_map (f : String → Bool) :
    ∀ ids : List String, countTrue (ids.map (fun u => (u, f u))) = ids.countP f := by
  intro ids
  induction ids with
  | nil => rfl
  | cons u rest ih =>
      by_cases h : f u <;> simp [countTrue, List.countP_cons, h] <;>
        simpa [countTrue] using ih

/-- Looking up any listed id in the per-id outcome object. -/
theorem lookupM_map_self {β : Type} (f : String → β) :
    ∀ (ids : List String) (u : String), u ∈ ids →
    lookupM (ids.map (fun w => (w, f w))) u = some (f u) := by
  intro ids
  induction ids with
  | nil =>
      intro u h
      exact absurd h (List.not_mem_nil u)
  | cons v rest ih =>
      intro u h
      by_cases hv : u = v
      · subst hv
        simp [lookupM]
      · have hm : u ∈ rest := (List.mem_cons.mp h).resolve_left hv
        simp [lookupM, hv, ih u hm]

/-- C7 counterexample: with user `"a"` connected, the duplicate list
`["a", "a"]` makes the loop increment `deliveredCount` twice while the
JavaScript results object collapses both writes into the single key
`"a"`, so `deliveredCount = 2` but the map has only one `true` entry —
the claimed equality fails for lists with repeated ids. -/
theorem sendToUsers_duplicate_cex :
    (sendToUsers (connectStep emptyState "a" "Guest" "s1") ["a", "a"] "X"
      (Payload.data "m")).1 = [("a", true)] ∧
    (sendToUsers (connectStep emptyState "a" "Guest" "s1") ["a", "a"] "X"
      (Payload.data "m")).2.1 = 2 ∧
    countTrue (sendToUsers (connectStep emptyState "a" "Guest" "s1") ["a", "a"] "X"
      (Payload.data "m")).1 = 1 := by decide

/-- C7 amended: for a list of DISTINCT userIds, `sendToUsers` returns a
per-id boolean map whose `true`-entry count equals `deliveredCount`,
`deliveredCount` is at most the number of ids, and each id's entry is
`true` exactly when that id resolves to a live connection — each entry
depends only on its own id's resolution, so one id's failure cannot
affect another's outcome. (With duplicate ids the count/map equality
fails: `sendToUsers_duplicate_cex`.) -/
theorem sendToUsers_nodup_spec (st : ServerState) (ids : List String) (ev : String)
    (pl : Payload) (hnd : ids.Nodup) :
    (sendToUsers st ids ev pl).2.1 = countTrue (sendToUsers st ids ev pl).1 ∧
    (sendToUsers st ids ev pl).2.1 ≤ ids.length ∧
    (∀ u, u ∈ ids → lookupM (sendToUsers st ids ev pl).1 u
        = some ((lookupM st.userConnections u).isSome)) := by
  obtain ⟨g1, g2⟩ := sendToUsers_foldl st ev pl ids [] 0 [] (fun u _ => rfl) hnd
  have hres : (sendToUsers st ids ev pl).1
      = ids.map (fun u => (u, (lookupM st.userConnections u).isSome)) := by
    simpa [sendToUsers] using g1
  have hcnt : (sendToUsers st ids ev pl).2.1
      = ids.countP (fun u => (lookupM st.userConnections u).isSome) := by
    simpa [sendToUsers] using g2
  refine ⟨?_, ?_, ?_⟩
  · rw [hres, hcnt, countTrue_map]
  · rw [hcnt]
    exact List.countP_le_length _
  · intro u hu
    rw [hres]
    exact lookupM_map_self _ ids u hu

theorem sendToUsers_nodup_spec_wit :
    (sendToUsers (connectStep emptyState "a" "Guest" "s1") ["a", "b"] "X"
      (Payload.data "m")).2.1
      = countTrue (sendToUsers (connectStep emptyState "a" "Guest" "s1") ["a", "b"] "X"
          (Payload.data "m")).1 ∧
    (sendToUsers (connectStep emptyState "a" "Guest" "s1") ["a", "b"] "X"
      (Payload.data "m")).2.1 ≤ (["a", "b"] : List String).length ∧
    lookupM (sendToUsers (connectStep emptyState "a" "Guest" "s1") ["a", "b"] "X"
      (Payload.data "m")).1 "b" = some false :=
  ⟨(sendToUsers_nodup_spec (connectStep emptyState "a" "Guest" "s1") ["a", "b"] "X"
      (Payload.data "m") (by decide)).1,
   (sendToUsers_nodup_spec (connectStep emptyState "a" "Guest" "s1") ["a", "b"] "X"
      (Payload.data "m") (by decide)).2.1,
   (sendToUsers_nodup_spec (connectStep emptyState "a" "Guest" "s1") ["a", "b"] "X"
      (Payload.data "m") (by decide)).2.2 "b" (by decide)⟩
